import Mathlib

/-!
Verification of the serde-detach crate (src/src/lib.rs): an adapter layer over
the serde deserialisation protocol that erases zero-copy (borrowed)
notifications, so that borrow-polymorphic decode targets always deserialise
into their owned representation.

Shallow embedding of the protocol and of the crate:

- DItem is the serde data model as seen by a model format decoder; strings
  and byte sequences carry a flag recording whether the decoder offers them
  through the zero-copy notification (visit_borrowed_str and
  visit_borrowed_bytes) or through the copy notification (visit_str and
  visit_bytes).  DItem.fail models input whose parsing fails.
- Visitor is the serde Visitor trait as a record of notification handlers;
  Seed is serde DeserializeSeed (one deserialize method).
- Deserializer, SeqAccess, MapAccess, EnumAccess and VariantAccess are the
  corresponding protocol objects.  Each is an inductive with two
  constructors: model, a self-describing format decoder over DItem in the
  style of serde_json (the external collaborator the adapter wraps), and
  adapt, the one-field wrapper struct of serde-detach.  The adapt cases of
  every method function below are translated from src/src/lib.rs; the model
  cases implement the protocol contract for the model format.
- Rust method dispatch surfaces (the 31 deserialize_* methods generated by
  the macro at lines 86 to 149 of the source) are indexed by the Method
  type, so that one Lean function per object covers the whole macro
  expansion; the adapt case treats every method uniformly, exactly as the
  macro does.
- The mutable access objects of serde (next_element_seed takes and mutates
  self) are embedded by explicit state passing: each pull operation returns
  the updated access object next to its result.
-/

namespace SerdeDetach

mutual

/-- Serde data-model value, used as the input tree of the model format
decoder.  The borrowable flag on str and bytes records whether the decoder
offers the value zero-copy (calling visit_borrowed_str and
visit_borrowed_bytes) or as a copy (visit_str and visit_bytes). -/
inductive DItem : Type where
  | bool (b : Bool)
  | i8 (n : Int)
  | i16 (n : Int)
  | i32 (n : Int)
  | i64 (n : Int)
  | i128 (n : Int)
  | u8 (n : Nat)
  | u16 (n : Nat)
  | u32 (n : Nat)
  | u64 (n : Nat)
  | u128 (n : Nat)
  | f32 (bits : Nat)
  | f64 (bits : Nat)
  | char (c : Char)
  | str (s : String) (borrowable : Bool)
  | string (s : String)
  | bytes (bs : List Nat) (borrowable : Bool)
  | byteBuf (bs : List Nat)
  | unit
  | none
  | some (x : DItem)
  | newtype (x : DItem)
  | seq (elems : DList)
  | map (entries : DPairs)
  | enum (variantId : DItem) (payload : DItem)
  | fail (msg : String)

/-- List of data-model values (spelled out so that DItem, DList and DPairs
form an ordinary mutual inductive family). -/
inductive DList : Type where
  | nil
  | cons (head : DItem) (tail : DList)

/-- List of key-value pairs of data-model values. -/
inductive DPairs : Type where
  | nil
  | cons (key : DItem) (value : DItem) (tail : DPairs)

end

/-- Length of a DList (used for the model sequence size_hint). -/
def DList.length : DList → Nat
  | DList.nil => 0
  | DList.cons _ tl => tl.length + 1

/-- Length of a DPairs (used for the model map size_hint). -/
def DPairs.length : DPairs → Nat
  | DPairs.nil => 0
  | DPairs.cons _ _ tl => tl.length + 1

/-- Error type of the model Deserializer.  Serde requires every error type
to be constructible from a custom message and from an invalid-type report;
the adapter declares type Error = D::Error (src/src/lib.rs lines 100, 235,
263, 309, 337) and never constructs an error of its own. -/
inductive Err : Type where
  | custom (msg : String)
  | invalidType (unexpected : String) (expected : String)

/-- One constructor per method of the serde Deserializer dispatch surface,
carrying the non-Visitor parameters (names, field lists, expected lengths)
of the corresponding deserialize_* method, mirroring the macro invocation at
src/src/lib.rs lines 102 to 144. -/
inductive Method : Type where
  | any
  | bool
  | i8
  | i16
  | i32
  | i64
  | u8
  | u16
  | u32
  | u64
  | f32
  | f64
  | char
  | str
  | string
  | bytes
  | byteBuf
  | option
  | unit
  | unitStruct (name : String)
  | newtypeStruct (name : String)
  | seq
  | tuple (len : Nat)
  | tupleStruct (name : String) (len : Nat)
  | map
  | struct (name : String) (fields : List String)
  | enum (name : String) (variants : List String)
  | identifier
  | ignoredAny
  | i128
  | u128

/-- True exactly for the deserialize_newtype_struct method, the only
dispatch method whose model-format behaviour hands the visitor a nested
Deserializer rather than a terminal notification for scalar input. -/
def Method.isNewtypeStructCall : Method → Bool
  | Method.newtypeStruct _ => true
  | _ => false

/-- Serde Deserializer objects in scope: the model format decoder over a
DItem input (with its human-readable flag), and the serde-detach adapter
struct Deserializer (src/src/lib.rs line 70), which wraps another
Deserializer. -/
inductive Deserializer : Type where
  | model (human : Bool) (input : DItem)
  | adapt (inner : Deserializer)

/-- Serde SeqAccess objects: the model sequence cursor (remaining elements)
and the serde-detach SeqAccess adapter (src/src/lib.rs line 219). -/
inductive SeqAccess : Type where
  | model (human : Bool) (elems : DList)
  | adapt (inner : SeqAccess)

/-- Serde MapAccess objects: the model map cursor (an optional pending
value for the entry whose key was already pulled, then the remaining
entries) and the serde-detach MapAccess adapter (src/src/lib.rs line 247). -/
inductive MapAccess : Type where
  | model (human : Bool) (pending : Option DItem) (entries : DPairs)
  | adapt (inner : MapAccess)

/-- Serde EnumAccess objects: the model enum cursor (variant identifier and
payload) and the serde-detach EnumAccess adapter (src/src/lib.rs line 293). -/
inductive EnumAccess : Type where
  | model (human : Bool) (variantId : DItem) (payload : DItem)
  | adapt (inner : EnumAccess)

/-- Serde VariantAccess objects: the model variant-payload cursor and the
serde-detach VariantAccess adapter (src/src/lib.rs line 321). -/
inductive VariantAccess : Type where
  | model (human : Bool) (payload : DItem)
  | adapt (inner : VariantAccess)

/-- The serde Visitor trait as a record: one handler per notification the
protocol defines, including the two zero-copy handlers visit_borrowed_str
and visit_borrowed_bytes whose trait default forwards to the corresponding
copy handler.  R is the Value associated type. -/
structure Visitor (R : Type) : Type where
  expecting : String
  visit_bool : Bool → Except Err R
  visit_i8 : Int → Except Err R
  visit_i16 : Int → Except Err R
  visit_i32 : Int → Except Err R
  visit_i64 : Int → Except Err R
  visit_i128 : Int → Except Err R
  visit_u8 : Nat → Except Err R
  visit_u16 : Nat → Except Err R
  visit_u32 : Nat → Except Err R
  visit_u64 : Nat → Except Err R
  visit_u128 : Nat → Except Err R
  visit_f32 : Nat → Except Err R
  visit_f64 : Nat → Except Err R
  visit_char : Char → Except Err R
  visit_str : String → Except Err R
  visit_borrowed_str : String → Except Err R
  visit_string : String → Except Err R
  visit_bytes : List Nat → Except Err R
  visit_borrowed_bytes : List Nat → Except Err R
  visit_byte_buf : List Nat → Except Err R
  visit_none : Except Err R
  visit_some : Deserializer → Except Err R
  visit_unit : Except Err R
  visit_newtype_struct : Deserializer → Except Err R
  visit_seq : SeqAccess → Except Err R
  visit_map : MapAccess → Except Err R
  visit_enum : EnumAccess → Except Err R

/-- Serde DeserializeSeed: a one-shot continuation that decodes the next
value from whatever Deserializer it is handed. -/
structure Seed (T : Type) : Type where
  deserialize : Deserializer → Except Err T

/-- Deserializer::new (src/src/lib.rs lines 72 to 74). -/
def Deserializer.new (deserializer : Deserializer) : Deserializer :=
  Deserializer.adapt deserializer

/-- Deserializer::into_inner (src/src/lib.rs lines 81 to 83); defined on
the adapter struct, which the adapt constructor embeds. -/
def Deserializer.into_inner : Deserializer → Deserializer
  | Deserializer.adapt d => d
  | Deserializer.model h i => Deserializer.model h i

/-- SeqAccess::new (src/src/lib.rs lines 221 to 223). -/
def SeqAccess.new (access : SeqAccess) : SeqAccess :=
  SeqAccess.adapt access

/-- SeqAccess::into_inner (src/src/lib.rs lines 230 to 232). -/
def SeqAccess.into_inner : SeqAccess → SeqAccess
  | SeqAccess.adapt a => a
  | SeqAccess.model h es => SeqAccess.model h es

/-- MapAccess::new (src/src/lib.rs lines 249 to 251). -/
def MapAccess.new (access : MapAccess) : MapAccess :=
  MapAccess.adapt access

/-- MapAccess::into_inner (src/src/lib.rs lines 258 to 260). -/
def MapAccess.into_inner : MapAccess → MapAccess
  | MapAccess.adapt a => a
  | MapAccess.model h p es => MapAccess.model h p es

/-- EnumAccess::new (src/src/lib.rs lines 295 to 297). -/
def EnumAccess.new (access : EnumAccess) : EnumAccess :=
  EnumAccess.adapt access

/-- EnumAccess::into_inner (src/src/lib.rs lines 304 to 306). -/
def EnumAccess.into_inner : EnumAccess → EnumAccess
  | EnumAccess.adapt a => a
  | EnumAccess.model h v p => EnumAccess.model h v p

/-- VariantAccess::new (src/src/lib.rs lines 323 to 325). -/
def VariantAccess.new (access : VariantAccess) : VariantAccess :=
  VariantAccess.adapt access

/-- VariantAccess::into_inner (src/src/lib.rs lines 332 to 334). -/
def VariantAccess.into_inner : VariantAccess → VariantAccess
  | VariantAccess.adapt a => a
  | VariantAccess.model h p => VariantAccess.model h p

/-- The one-field entry wrapper struct Detach (src/src/lib.rs line 57). -/
structure Detach (T : Type) : Type where
  val : T

/-- The detach function (src/src/lib.rs lines 52 to 54): unwraps the
one-field holder. -/
def detach {T : Type} (d : Detach T) : T :=
  d.val

/-- The Seed adapter (src/src/lib.rs lines 365 to 374): its deserialize
wraps the supplied Deserializer in a fresh Deserializer adapter before
delegating to the wrapped seed. -/
def Seed.adapt {T : Type} (s : Seed T) : Seed T :=
  Seed.mk (fun deserializer => s.deserialize (Deserializer.new deserializer))

/-- The Visitor adapter (src/src/lib.rs lines 151 to 217).  Terminal
notifications forward the value unchanged; visit_some, visit_newtype_struct,
visit_seq, visit_map and visit_enum wrap their argument in the matching
adapter; visit_borrowed_str and visit_borrowed_bytes are NOT implemented
(lines 196 and 200), so they are the serde trait defaults, which forward to
this adapter itself at visit_str and visit_bytes, hence to the wrapped
visitor's copy handlers. -/
def Visitor.adapt {R : Type} (v : Visitor R) : Visitor R where
  expecting := v.expecting
  visit_bool := v.visit_bool
  visit_i8 := v.visit_i8
  visit_i16 := v.visit_i16
  visit_i32 := v.visit_i32
  visit_i64 := v.visit_i64
  visit_i128 := v.visit_i128
  visit_u8 := v.visit_u8
  visit_u16 := v.visit_u16
  visit_u32 := v.visit_u32
  visit_u64 := v.visit_u64
  visit_u128 := v.visit_u128
  visit_f32 := v.visit_f32
  visit_f64 := v.visit_f64
  visit_char := v.visit_char
  visit_str := v.visit_str
  visit_borrowed_str := v.visit_str
  visit_string := v.visit_string
  visit_bytes := v.visit_bytes
  visit_borrowed_bytes := v.visit_bytes
  visit_byte_buf := v.visit_byte_buf
  visit_none := v.visit_none
  visit_some := fun d => v.visit_some (Deserializer.new d)
  visit_unit := v.visit_unit
  visit_newtype_struct := fun d => v.visit_newtype_struct (Deserializer.new d)
  visit_seq := fun a => v.visit_seq (SeqAccess.new a)
  visit_map := fun a => v.visit_map (MapAccess.new a)
  visit_enum := fun a => v.visit_enum (EnumAccess.new a)

/-- Self-describing dispatch of the model format decoder: inspects the
input item and issues the corresponding visitor notification, offering the
zero-copy notification for strings and byte sequences flagged borrowable,
exactly as a borrowing format decoder would. -/
def driveAny {R : Type} (h : Bool) (v : Visitor R) : DItem → Except Err R
  | DItem.bool b => v.visit_bool b
  | DItem.i8 n => v.visit_i8 n
  | DItem.i16 n => v.visit_i16 n
  | DItem.i32 n => v.visit_i32 n
  | DItem.i64 n => v.visit_i64 n
  | DItem.i128 n => v.visit_i128 n
  | DItem.u8 n => v.visit_u8 n
  | DItem.u16 n => v.visit_u16 n
  | DItem.u32 n => v.visit_u32 n
  | DItem.u64 n => v.visit_u64 n
  | DItem.u128 n => v.visit_u128 n
  | DItem.f32 bits => v.visit_f32 bits
  | DItem.f64 bits => v.visit_f64 bits
  | DItem.char c => v.visit_char c
  | DItem.str s true => v.visit_borrowed_str s
  | DItem.str s false => v.visit_str s
  | DItem.string s => v.visit_string s
  | DItem.bytes bs true => v.visit_borrowed_bytes bs
  | DItem.bytes bs false => v.visit_bytes bs
  | DItem.byteBuf bs => v.visit_byte_buf bs
  | DItem.unit => v.visit_unit
  | DItem.none => v.visit_none
  | DItem.some x => v.visit_some (Deserializer.model h x)
  | DItem.newtype x => v.visit_newtype_struct (Deserializer.model h x)
  | DItem.seq vs => v.visit_seq (SeqAccess.model h vs)
  | DItem.map kvs => v.visit_map (MapAccess.model h Option.none kvs)
  | DItem.enum vid pl => v.visit_enum (EnumAccess.model h vid pl)
  | DItem.fail msg => Except.error (Err.custom msg)

/-- The Deserializer dispatch surface.  The adapt case is the macro
expansion of src/src/lib.rs lines 86 to 144: every method delegates to the
identically named method of the wrapped Deserializer (the same Method value,
so names, field lists and lengths pass through unchanged) with the Visitor
wrapped in the Visitor adapter.  The model case is the self-describing model
format: deserialize_newtype_struct hands the visitor the decoder itself, and
every other method dispatches on the input shape. -/
def Deserializer.deserialize {R : Type} : Deserializer → Method → Visitor R → Except Err R
  | Deserializer.adapt d, m, v => d.deserialize m (Visitor.adapt v)
  | Deserializer.model h i, Method.newtypeStruct _, v =>
      v.visit_newtype_struct (Deserializer.model h i)
  | Deserializer.model h i, _, v => driveAny h v i

/-- is_human_readable (src/src/lib.rs lines 146 to 148): the adapter
forwards the query to the wrapped Deserializer unchanged. -/
def Deserializer.is_human_readable : Deserializer → Bool
  | Deserializer.adapt d => d.is_human_readable
  | Deserializer.model h _ => h

/-- SeqAccess::next_element_seed.  The adapt case is src/src/lib.rs lines
236 to 241: forwards to the wrapped access with the seed wrapped in the Seed
adapter.  The model case pulls the next element, handing the seed a model
Deserializer over it. -/
def SeqAccess.next_element_seed {T : Type} :
    SeqAccess → Seed T → Except Err (Option T × SeqAccess)
  | SeqAccess.model h DList.nil, _ =>
      Except.ok (Option.none, SeqAccess.model h DList.nil)
  | SeqAccess.model h (DList.cons x xs), seed =>
      (seed.deserialize (Deserializer.model h x)).map
        (fun t => (Option.some t, SeqAccess.model h xs))
  | SeqAccess.adapt a, seed =>
      (a.next_element_seed (Seed.adapt seed)).map
        (fun p => (p.1, SeqAccess.adapt p.2))

/-- SeqAccess::size_hint.  The adapt case is src/src/lib.rs lines 242 to
244: forwarded unchanged. -/
def SeqAccess.size_hint : SeqAccess → Option Nat
  | SeqAccess.model _ es => Option.some es.length
  | SeqAccess.adapt a => a.size_hint

/-- MapAccess::next_key_seed.  The adapt case is src/src/lib.rs lines 264
to 269: forwards with the key seed wrapped.  The model case pulls the next
key and parks the entry's value as pending. -/
def MapAccess.next_key_seed {K : Type} :
    MapAccess → Seed K → Except Err (Option K × MapAccess)
  | MapAccess.model _ (Option.some _) _, _ =>
      Except.error (Err.custom (r"next_key_seed called while a value is pending"))
  | MapAccess.model h Option.none DPairs.nil, _ =>
      Except.ok (Option.none, MapAccess.model h Option.none DPairs.nil)
  | MapAccess.model h Option.none (DPairs.cons k v tl), seed =>
      (seed.deserialize (Deserializer.model h k)).map
        (fun t => (Option.some t, MapAccess.model h (Option.some v) tl))
  | MapAccess.adapt a, seed =>
      (a.next_key_seed (Seed.adapt seed)).map
        (fun p => (p.1, MapAccess.adapt p.2))

/-- MapAccess::next_value_seed.  The adapt case is src/src/lib.rs lines 270
to 275: forwards with the value seed wrapped.  The model case decodes the
pending value. -/
def MapAccess.next_value_seed {V : Type} :
    MapAccess → Seed V → Except Err (V × MapAccess)
  | MapAccess.model h (Option.some v) tl, seed =>
      (seed.deserialize (Deserializer.model h v)).map
        (fun t => (t, MapAccess.model h Option.none tl))
  | MapAccess.model _ Option.none _, _ =>
      Except.error (Err.custom (r"next_value_seed called before next_key_seed"))
  | MapAccess.adapt a, seed =>
      (a.next_value_seed (Seed.adapt seed)).map
        (fun p => (p.1, MapAccess.adapt p.2))

/-- MapAccess::next_entry_seed.  The adapt case is src/src/lib.rs lines 277
to 287: forwards with both seeds wrapped.  The model case decodes key and
value of the next entry in order. -/
def MapAccess.next_entry_seed {K V : Type} :
    MapAccess → Seed K → Seed V → Except Err (Option (K × V) × MapAccess)
  | MapAccess.model _ (Option.some _) _, _, _ =>
      Except.error (Err.custom (r"next_entry_seed called while a value is pending"))
  | MapAccess.model h Option.none DPairs.nil, _, _ =>
      Except.ok (Option.none, MapAccess.model h Option.none DPairs.nil)
  | MapAccess.model h Option.none (DPairs.cons k v tl), kseed, vseed =>
      match kseed.deserialize (Deserializer.model h k) with
      | Except.error e => Except.error e
      | Except.ok kt =>
          (vseed.deserialize (Deserializer.model h v)).map
            (fun vt => (Option.some (kt, vt), MapAccess.model h Option.none tl))
  | MapAccess.adapt a, kseed, vseed =>
      (a.next_entry_seed (Seed.adapt kseed) (Seed.adapt vseed)).map
        (fun p => (p.1, MapAccess.adapt p.2))

/-- MapAccess::size_hint.  The adapt case is src/src/lib.rs lines 288 to
290: forwarded unchanged. -/
def MapAccess.size_hint : MapAccess → Option Nat
  | MapAccess.model _ _ es => Option.some es.length
  | MapAccess.adapt a => a.size_hint

/-- EnumAccess::variant_seed.  The adapt case is src/src/lib.rs lines 311
to 318: forwards with the seed wrapped, keeps the identified value unchanged
and wraps the returned payload cursor in the VariantAccess adapter.  The
model case decodes the variant identifier and hands back the payload
cursor. -/
def EnumAccess.variant_seed {T : Type} :
    EnumAccess → Seed T → Except Err (T × VariantAccess)
  | EnumAccess.model h vid pl, seed =>
      (seed.deserialize (Deserializer.model h vid)).map
        (fun t => (t, VariantAccess.model h pl))
  | EnumAccess.adapt a, seed =>
      (a.variant_seed (Seed.adapt seed)).map
        (fun p => (p.1, VariantAccess.adapt p.2))

/-- VariantAccess::unit_variant.  The adapt case is src/src/lib.rs lines
338 to 340: forwarded unchanged. -/
def VariantAccess.unit_variant : VariantAccess → Except Err Unit
  | VariantAccess.model _ DItem.unit => Except.ok Unit.unit
  | VariantAccess.model _ _ =>
      Except.error (Err.invalidType (r"non-unit variant payload") (r"unit variant"))
  | VariantAccess.adapt a => a.unit_variant

/-- VariantAccess::newtype_variant_seed.  The adapt case is src/src/lib.rs
lines 341 to 346: forwards with the seed wrapped. -/
def VariantAccess.newtype_variant_seed {T : Type} :
    VariantAccess → Seed T → Except Err T
  | VariantAccess.model h pl, seed => seed.deserialize (Deserializer.model h pl)
  | VariantAccess.adapt a, seed => a.newtype_variant_seed (Seed.adapt seed)

/-- VariantAccess::tuple_variant.  The adapt case is src/src/lib.rs lines
347 to 352: forwards the length unchanged with the visitor wrapped. -/
def VariantAccess.tuple_variant {R : Type} :
    VariantAccess → Nat → Visitor R → Except Err R
  | VariantAccess.model h (DItem.seq vs), _, v => v.visit_seq (SeqAccess.model h vs)
  | VariantAccess.model _ _, _, _ =>
      Except.error (Err.invalidType (r"non-tuple variant payload") (r"tuple variant"))
  | VariantAccess.adapt a, len, v => a.tuple_variant len (Visitor.adapt v)

/-- VariantAccess::struct_variant.  The adapt case is src/src/lib.rs lines
353 to 362: forwards the field list unchanged with the visitor wrapped. -/
def VariantAccess.struct_variant {R : Type} :
    VariantAccess → List String → Visitor R → Except Err R
  | VariantAccess.model h (DItem.map kvs), _, v =>
      v.visit_map (MapAccess.model h Option.none kvs)
  | VariantAccess.model _ _, _, _ =>
      Except.error (Err.invalidType (r"non-struct variant payload") (r"struct variant"))
  | VariantAccess.adapt a, fields, v => a.struct_variant fields (Visitor.adapt v)

/-- Deserialize for Detach (src/src/lib.rs lines 59 to 68): invokes the
target type's decode entry point (passed here as the function tDe, standing
for T::deserialize) on the Deserializer wrapped in one Deserializer adapter,
and wraps the success value in the one-field holder. -/
def Detach.deserialize {T : Type} (tDe : Deserializer → Except Err T)
    (deserializer : Deserializer) : Except Err (Detach T) :=
  (tDe (Deserializer.new deserializer)).map Detach.mk

/-- A universal structural consumer visitor over the model data universe:
it accepts every notification and rebuilds the decoded value as a DItem, so
that the borrowable flags of the result record exactly which notification
(zero-copy or copy) reached the final visitor.  dec decodes one nested
value, seqF drains a sequence cursor and mapF drains a map cursor. -/
def uVisitorF (dec : Deserializer → Except Err DItem)
    (seqF : SeqAccess → Except Err DList)
    (mapF : MapAccess → Except Err DPairs) : Visitor DItem where
  expecting := (r"any value")
  visit_bool := fun b => Except.ok (DItem.bool b)
  visit_i8 := fun n => Except.ok (DItem.i8 n)
  visit_i16 := fun n => Except.ok (DItem.i16 n)
  visit_i32 := fun n => Except.ok (DItem.i32 n)
  visit_i64 := fun n => Except.ok (DItem.i64 n)
  visit_i128 := fun n => Except.ok (DItem.i128 n)
  visit_u8 := fun n => Except.ok (DItem.u8 n)
  visit_u16 := fun n => Except.ok (DItem.u16 n)
  visit_u32 := fun n => Except.ok (DItem.u32 n)
  visit_u64 := fun n => Except.ok (DItem.u64 n)
  visit_u128 := fun n => Except.ok (DItem.u128 n)
  visit_f32 := fun bits => Except.ok (DItem.f32 bits)
  visit_f64 := fun bits => Except.ok (DItem.f64 bits)
  visit_char := fun c => Except.ok (DItem.char c)
  visit_str := fun s => Except.ok (DItem.str s false)
  visit_borrowed_str := fun s => Except.ok (DItem.str s true)
  visit_string := fun s => Except.ok (DItem.string s)
  visit_bytes := fun bs => Except.ok (DItem.bytes bs false)
  visit_borrowed_bytes := fun bs => Except.ok (DItem.bytes bs true)
  visit_byte_buf := fun bs => Except.ok (DItem.byteBuf bs)
  visit_none := Except.ok DItem.none
  visit_some := fun d => (dec d).map DItem.some
  visit_unit := Except.ok DItem.unit
  visit_newtype_struct := fun d => (dec d).map DItem.newtype
  visit_seq := fun a => (seqF a).map DItem.seq
  visit_map := fun a => (mapF a).map DItem.map
  visit_enum := fun a =>
    match a.variant_seed (Seed.mk dec) with
    | Except.error e => Except.error e
    | Except.ok p => ((p.2).newtype_variant_seed (Seed.mk dec)).map (DItem.enum p.1)

/-- Fuel-indexed universal decoding: the triple of the value decoder, the
sequence drain and the map drain, each at the given fuel. -/
def uStep : Nat →
    ((Deserializer → Except Err DItem) ×
     (SeqAccess → Except Err DList) ×
     (MapAccess → Except Err DPairs))
  | 0 =>
    ( fun _ => Except.error (Err.custom (r"out of fuel"))
    , fun _ => Except.error (Err.custom (r"out of fuel"))
    , fun _ => Except.error (Err.custom (r"out of fuel")) )
  | n + 1 =>
    ( fun d => d.deserialize Method.any (uVisitorF (uStep n).1 (uStep n).2.1 (uStep n).2.2)
    , fun a =>
        match a.next_element_seed (Seed.mk (uStep n).1) with
        | Except.error e => Except.error e
        | Except.ok (Option.none, _) => Except.ok DList.nil
        | Except.ok (Option.some x, a2) => ((uStep n).2.1 a2).map (DList.cons x)
    , fun a =>
        match a.next_key_seed (Seed.mk (uStep n).1) with
        | Except.error e => Except.error e
        | Except.ok (Option.none, _) => Except.ok DPairs.nil
        | Except.ok (Option.some k, a2) =>
            match a2.next_value_seed (Seed.mk (uStep n).1) with
            | Except.error e => Except.error e
            | Except.ok (v, a3) => ((uStep n).2.2 a3).map (DPairs.cons k v) )

/-- Universal decode of one value at the given fuel. -/
def uDecode (n : Nat) (d : Deserializer) : Except Err DItem :=
  (uStep n).1 d

/-- Universal drain of a sequence cursor at the given fuel. -/
def uSeqLoop (n : Nat) (a : SeqAccess) : Except Err DList :=
  (uStep n).2.1 a

/-- Universal drain of a map cursor at the given fuel. -/
def uMapLoop (n : Nat) (a : MapAccess) : Except Err DPairs :=
  (uStep n).2.2 a

/-- The universal visitor at fuel n. -/
def uVisitor (n : Nat) : Visitor DItem :=
  uVisitorF (uDecode n) (uSeqLoop n) (uMapLoop n)

theorem uDecode_succ (n : Nat) (d : Deserializer) :
    uDecode (n + 1) d = d.deserialize Method.any (uVisitor n) := rfl

theorem uSeqLoop_succ (n : Nat) (a : SeqAccess) :
    uSeqLoop (n + 1) a =
      match a.next_element_seed (Seed.mk (uDecode n)) with
      | Except.error e => Except.error e
      | Except.ok (Option.none, _) => Except.ok DList.nil
      | Except.ok (Option.some x, a2) => (uSeqLoop n a2).map (DList.cons x) := rfl

theorem uMapLoop_succ (n : Nat) (a : MapAccess) :
    uMapLoop (n + 1) a =
      match a.next_key_seed (Seed.mk (uDecode n)) with
      | Except.error e => Except.error e
      | Except.ok (Option.none, _) => Except.ok DPairs.nil
      | Except.ok (Option.some k, a2) =>
          match a2.next_value_seed (Seed.mk (uDecode n)) with
          | Except.error e => Except.error e
          | Except.ok (v, a3) => (uMapLoop n a3).map (DPairs.cons k v) := rfl

mutual

/-- Ownership erasure on decoded values: clears every borrowable flag,
recursively.  The simulation theorem below shows that decoding through the
adapter equals direct decoding followed by this function. -/
def detachItem : DItem → DItem
  | DItem.str s _ => DItem.str s false
  | DItem.bytes bs _ => DItem.bytes bs false
  | DItem.some x => DItem.some (detachItem x)
  | DItem.newtype x => DItem.newtype (detachItem x)
  | DItem.seq vs => DItem.seq (detachList vs)
  | DItem.map kvs => DItem.map (detachPairs kvs)
  | DItem.enum vid pl => DItem.enum (detachItem vid) (detachItem pl)
  | i => i

/-- detachItem mapped over a DList. -/
def detachList : DList → DList
  | DList.nil => DList.nil
  | DList.cons x xs => DList.cons (detachItem x) (detachList xs)

/-- detachItem mapped over a DPairs. -/
def detachPairs : DPairs → DPairs
  | DPairs.nil => DPairs.nil
  | DPairs.cons k v tl => DPairs.cons (detachItem k) (detachItem v) (detachPairs tl)

end

mutual

/-- True when a decoded value contains no borrowed (zero-copy) string or
byte-sequence leaf at any depth. -/
def ownedOnly : DItem → Bool
  | DItem.str _ b => !b
  | DItem.bytes _ b => !b
  | DItem.some x => ownedOnly x
  | DItem.newtype x => ownedOnly x
  | DItem.seq vs => ownedOnlyList vs
  | DItem.map kvs => ownedOnlyPairs kvs
  | DItem.enum vid pl => ownedOnly vid && ownedOnly pl
  | _ => true

/-- ownedOnly over a DList. -/
def ownedOnlyList : DList → Bool
  | DList.nil => true
  | DList.cons x xs => ownedOnly x && ownedOnlyList xs

/-- ownedOnly over a DPairs. -/
def ownedOnlyPairs : DPairs → Bool
  | DPairs.nil => true
  | DPairs.cons k v tl => ownedOnly k && ownedOnly v && ownedOnlyPairs tl

end

mutual

theorem detachItem_owned : ∀ i : DItem, ownedOnly (detachItem i) = true
  | DItem.bool _ => rfl
  | DItem.i8 _ => rfl
  | DItem.i16 _ => rfl
  | DItem.i32 _ => rfl
  | DItem.i64 _ => rfl
  | DItem.i128 _ => rfl
  | DItem.u8 _ => rfl
  | DItem.u16 _ => rfl
  | DItem.u32 _ => rfl
  | DItem.u64 _ => rfl
  | DItem.u128 _ => rfl
  | DItem.f32 _ => rfl
  | DItem.f64 _ => rfl
  | DItem.char _ => rfl
  | DItem.str _ _ => rfl
  | DItem.string _ => rfl
  | DItem.bytes _ _ => rfl
  | DItem.byteBuf _ => rfl
  | DItem.unit => rfl
  | DItem.none => rfl
  | DItem.some x => detachItem_owned x
  | DItem.newtype x => detachItem_owned x
  | DItem.seq vs => detachList_owned vs
  | DItem.map kvs => detachPairs_owned kvs
  | DItem.enum vid pl => by
      simp [detachItem, ownedOnly, detachItem_owned vid, detachItem_owned pl]
  | DItem.fail _ => rfl

theorem detachList_owned : ∀ vs : DList, ownedOnlyList (detachList vs) = true
  | DList.nil => rfl
  | DList.cons x xs => by
      simp [detachList, ownedOnlyList, detachItem_owned x, detachList_owned xs]

theorem detachPairs_owned : ∀ kvs : DPairs, ownedOnlyPairs (detachPairs kvs) = true
  | DPairs.nil => rfl
  | DPairs.cons k v tl => by
      simp [detachPairs, ownedOnlyPairs, detachItem_owned k, detachItem_owned v,
        detachPairs_owned tl]

end

mutual

theorem detachItem_idem : ∀ i : DItem, detachItem (detachItem i) = detachItem i
  | DItem.bool _ => rfl
  | DItem.i8 _ => rfl
  | DItem.i16 _ => rfl
  | DItem.i32 _ => rfl
  | DItem.i64 _ => rfl
  | DItem.i128 _ => rfl
  | DItem.u8 _ => rfl
  | DItem.u16 _ => rfl
  | DItem.u32 _ => rfl
  | DItem.u64 _ => rfl
  | DItem.u128 _ => rfl
  | DItem.f32 _ => rfl
  | DItem.f64 _ => rfl
  | DItem.char _ => rfl
  | DItem.str _ _ => rfl
  | DItem.string _ => rfl
  | DItem.bytes _ _ => rfl
  | DItem.byteBuf _ => rfl
  | DItem.unit => rfl
  | DItem.none => rfl
  | DItem.some x => by simp [detachItem, detachItem_idem x]
  | DItem.newtype x => by simp [detachItem, detachItem_idem x]
  | DItem.seq vs => by simp [detachItem, detachList_idem vs]
  | DItem.map kvs => by simp [detachItem, detachPairs_idem kvs]
  | DItem.enum vid pl => by simp [detachItem, detachItem_idem vid, detachItem_idem pl]
  | DItem.fail _ => rfl

theorem detachList_idem : ∀ vs : DList, detachList (detachList vs) = detachList vs
  | DList.nil => rfl
  | DList.cons x xs => by simp [detachList, detachItem_idem x, detachList_idem xs]

theorem detachPairs_idem : ∀ kvs : DPairs, detachPairs (detachPairs kvs) = detachPairs kvs
  | DPairs.nil => rfl
  | DPairs.cons k v tl => by
      simp [detachPairs, detachItem_idem k, detachItem_idem v, detachPairs_idem tl]

end

/-- k-fold application of the Deserializer adapter. -/
def Deserializer.adaptK : Nat → Deserializer → Deserializer
  | 0, d => d
  | k + 1, d => Deserializer.adapt (Deserializer.adaptK k d)

/-- k-fold application of the Visitor adapter. -/
def Visitor.adaptK {R : Type} : Nat → Visitor R → Visitor R
  | 0, v => v
  | k + 1, v => Visitor.adapt (Visitor.adaptK k v)

/-- k-fold application of the Seed adapter. -/
def Seed.adaptK {T : Type} : Nat → Seed T → Seed T
  | 0, s => s
  | k + 1, s => Seed.adapt (Seed.adaptK k s)

/-- k-fold application of the SeqAccess adapter. -/
def SeqAccess.adaptK : Nat → SeqAccess → SeqAccess
  | 0, a => a
  | k + 1, a => SeqAccess.adapt (SeqAccess.adaptK k a)

/-- k-fold application of the MapAccess adapter. -/
def MapAccess.adaptK : Nat → MapAccess → MapAccess
  | 0, a => a
  | k + 1, a => MapAccess.adapt (MapAccess.adaptK k a)

/-- k-fold application of the EnumAccess adapter. -/
def EnumAccess.adaptK : Nat → EnumAccess → EnumAccess
  | 0, a => a
  | k + 1, a => EnumAccess.adapt (EnumAccess.adaptK k a)

/-- k-fold application of the VariantAccess adapter. -/
def VariantAccess.adaptK : Nat → VariantAccess → VariantAccess
  | 0, a => a
  | k + 1, a => VariantAccess.adapt (VariantAccess.adaptK k a)

theorem Deserializer.adaptK_comm_deserializer (k : Nat) (d : Deserializer) :
    Deserializer.adaptK k (Deserializer.adapt d) = Deserializer.adapt (Deserializer.adaptK k d) := by
  induction k with
  | zero => rfl
  | succ k ih => simp [Deserializer.adaptK, ih]

theorem Visitor.adaptK_comm_visitor {R : Type} (k : Nat) (v : Visitor R) :
    Visitor.adaptK k (Visitor.adapt v) = Visitor.adapt (Visitor.adaptK k v) := by
  induction k with
  | zero => rfl
  | succ k ih => simp [Visitor.adaptK, ih]

theorem Seed.adaptK_comm_seed {T : Type} (k : Nat) (s : Seed T) :
    Seed.adaptK k (Seed.adapt s) = Seed.adapt (Seed.adaptK k s) := by
  induction k with
  | zero => rfl
  | succ k ih => simp [Seed.adaptK, ih]

theorem SeqAccess.adaptK_comm_seq (k : Nat) (a : SeqAccess) :
    SeqAccess.adaptK k (SeqAccess.adapt a) = SeqAccess.adapt (SeqAccess.adaptK k a) := by
  induction k with
  | zero => rfl
  | succ k ih => simp [SeqAccess.adaptK, ih]

theorem MapAccess.adaptK_comm_map (k : Nat) (a : MapAccess) :
    MapAccess.adaptK k (MapAccess.adapt a) = MapAccess.adapt (MapAccess.adaptK k a) := by
  induction k with
  | zero => rfl
  | succ k ih => simp [MapAccess.adaptK, ih]

theorem EnumAccess.adaptK_comm_enum (k : Nat) (a : EnumAccess) :
    EnumAccess.adaptK k (EnumAccess.adapt a) = EnumAccess.adapt (EnumAccess.adaptK k a) := by
  induction k with
  | zero => rfl
  | succ k ih => simp [EnumAccess.adaptK, ih]

theorem VariantAccess.adaptK_comm_variant (k : Nat) (a : VariantAccess) :
    VariantAccess.adaptK k (VariantAccess.adapt a) = VariantAccess.adapt (VariantAccess.adaptK k a) := by
  induction k with
  | zero => rfl
  | succ k ih => simp [VariantAccess.adaptK, ih]

theorem Except.map_map_eq {α β γ : Type} (x : Except Err α) (f : α → β) (g : β → γ) :
    (x.map f).map g = x.map (fun a => g (f a)) := by
  cases x <;> rfl

theorem Deserializer.deserialize_adaptK {R : Type} (k : Nat) (d : Deserializer)
    (m : Method) (v : Visitor R) :
    (Deserializer.adaptK k d).deserialize m v = d.deserialize m (Visitor.adaptK k v) := by
  induction k generalizing v with
  | zero => rfl
  | succ k ih =>
      show (Deserializer.adaptK k d).deserialize m (Visitor.adapt v) = _
      rw [ih, Visitor.adaptK_comm_visitor]
      rfl

theorem Seed.adaptK_deserialize {T : Type} (k : Nat) (s : Seed T) (d : Deserializer) :
    (Seed.adaptK k s).deserialize d = s.deserialize (Deserializer.adaptK k d) := by
  induction k generalizing d with
  | zero => rfl
  | succ k ih =>
      show (Seed.adaptK k s).deserialize (Deserializer.adapt d) = _
      rw [ih, Deserializer.adaptK_comm_deserializer]
      rfl

theorem SeqAccess.next_element_seed_adaptK {T : Type} (k : Nat) (a : SeqAccess) (s : Seed T) :
    (SeqAccess.adaptK k a).next_element_seed s =
      (a.next_element_seed (Seed.adaptK k s)).map
        (fun p => (p.1, SeqAccess.adaptK k p.2)) := by
  induction k generalizing s with
  | zero =>
      show a.next_element_seed s = (a.next_element_seed s).map (fun p => (p.1, p.2))
      cases a.next_element_seed s <;> rfl
  | succ k ih =>
      show ((SeqAccess.adaptK k a).next_element_seed (Seed.adapt s)).map
          (fun p => (p.1, SeqAccess.adapt p.2)) = _
      rw [ih, Seed.adaptK_comm_seed, Except.map_map_eq]
      rfl

theorem MapAccess.next_key_seed_adaptK {K : Type} (k : Nat) (a : MapAccess) (s : Seed K) :
    (MapAccess.adaptK k a).next_key_seed s =
      (a.next_key_seed (Seed.adaptK k s)).map
        (fun p => (p.1, MapAccess.adaptK k p.2)) := by
  induction k generalizing s with
  | zero =>
      show a.next_key_seed s = (a.next_key_seed s).map (fun p => (p.1, p.2))
      cases a.next_key_seed s <;> rfl
  | succ k ih =>
      show ((MapAccess.adaptK k a).next_key_seed (Seed.adapt s)).map
          (fun p => (p.1, MapAccess.adapt p.2)) = _
      rw [ih, Seed.adaptK_comm_seed, Except.map_map_eq]
      rfl

theorem MapAccess.next_value_seed_adaptK {V : Type} (k : Nat) (a : MapAccess) (s : Seed V) :
    (MapAccess.adaptK k a).next_value_seed s =
      (a.next_value_seed (Seed.adaptK k s)).map
        (fun p => (p.1, MapAccess.adaptK k p.2)) := by
  induction k generalizing s with
  | zero =>
      show a.next_value_seed s = (a.next_value_seed s).map (fun p => (p.1, p.2))
      cases a.next_value_seed s <;> rfl
  | succ k ih =>
      show ((MapAccess.adaptK k a).next_value_seed (Seed.adapt s)).map
          (fun p => (p.1, MapAccess.adapt p.2)) = _
      rw [ih, Seed.adaptK_comm_seed, Except.map_map_eq]
      rfl

theorem EnumAccess.variant_seed_adaptK {T : Type} (k : Nat) (a : EnumAccess) (s : Seed T) :
    (EnumAccess.adaptK k a).variant_seed s =
      (a.variant_seed (Seed.adaptK k s)).map
        (fun p => (p.1, VariantAccess.adaptK k p.2)) := by
  induction k generalizing s with
  | zero =>
      show a.variant_seed s = (a.variant_seed s).map (fun p => (p.1, p.2))
      cases a.variant_seed s <;> rfl
  | succ k ih =>
      show ((EnumAccess.adaptK k a).variant_seed (Seed.adapt s)).map
          (fun p => (p.1, VariantAccess.adapt p.2)) = _
      rw [ih, Seed.adaptK_comm_seed, Except.map_map_eq]
      rfl

theorem VariantAccess.newtype_variant_seed_adaptK {T : Type} (k : Nat) (a : VariantAccess)
    (s : Seed T) :
    (VariantAccess.adaptK k a).newtype_variant_seed s =
      a.newtype_variant_seed (Seed.adaptK k s) := by
  induction k generalizing s with
  | zero => rfl
  | succ k ih =>
      show (VariantAccess.adaptK k a).newtype_variant_seed (Seed.adapt s) = _
      rw [ih, Seed.adaptK_comm_seed]
      rfl

theorem Visitor.adaptK_visit_str {R : Type} (k : Nat) (v : Visitor R) :
    (Visitor.adaptK k v).visit_str = v.visit_str := by
  induction k with
  | zero => rfl
  | succ k ih => exact ih

theorem Visitor.adaptK_visit_bytes {R : Type} (k : Nat) (v : Visitor R) :
    (Visitor.adaptK k v).visit_bytes = v.visit_bytes := by
  induction k with
  | zero => rfl
  | succ k ih => exact ih

theorem Visitor.adaptK_succ_visit_borrowed_str {R : Type} (k : Nat) (v : Visitor R) :
    (Visitor.adaptK (k + 1) v).visit_borrowed_str = v.visit_str :=
  Visitor.adaptK_visit_str k v

theorem Visitor.adaptK_succ_visit_borrowed_bytes {R : Type} (k : Nat) (v : Visitor R) :
    (Visitor.adaptK (k + 1) v).visit_borrowed_bytes = v.visit_bytes :=
  Visitor.adaptK_visit_bytes k v

theorem Visitor.adaptK_visit_bool {R : Type} (k : Nat) (v : Visitor R) :
    (Visitor.adaptK k v).visit_bool = v.visit_bool := by
  induction k with
  | zero => rfl
  | succ k ih => exact ih

theorem Visitor.adaptK_visit_i8 {R : Type} (k : Nat) (v : Visitor R) :
    (Visitor.adaptK k v).visit_i8 = v.visit_i8 := by
  induction k with
  | zero => rfl
  | succ k ih => exact ih

theorem Visitor.adaptK_visit_i16 {R : Type} (k : Nat) (v : Visitor R) :
    (Visitor.adaptK k v).visit_i16 = v.visit_i16 := by
  induction k with
  | zero => rfl
  | succ k ih => exact ih

theorem Visitor.adaptK_visit_i32 {R : Type} (k : Nat) (v : Visitor R) :
    (Visitor.adaptK k v).visit_i32 = v.visit_i32 := by
  induction k with
  | zero => rfl
  | succ k ih => exact ih

theorem Visitor.adaptK_visit_i64 {R : Type} (k : Nat) (v : Visitor R) :
    (Visitor.adaptK k v).visit_i64 = v.visit_i64 := by
  induction k with
  | zero => rfl
  | succ k ih => exact ih

theorem Visitor.adaptK_visit_i128 {R : Type} (k : Nat) (v : Visitor R) :
    (Visitor.adaptK k v).visit_i128 = v.visit_i128 := by
  induction k with
  | zero => rfl
  | succ k ih => exact ih

theorem Visitor.adaptK_visit_u8 {R : Type} (k : Nat) (v : Visitor R) :
    (Visitor.adaptK k v).visit_u8 = v.visit_u8 := by
  induction k with
  | zero => rfl
  | succ k ih => exact ih

theorem Visitor.adaptK_visit_u16 {R : Type} (k : Nat) (v : Visitor R) :
    (Visitor.adaptK k v).visit_u16 = v.visit_u16 := by
  induction k with
  | zero => rfl
  | succ k ih => exact ih

theorem Visitor.adaptK_visit_u32 {R : Type} (k : Nat) (v : Visitor R) :
    (Visitor.adaptK k v).visit_u32 = v.visit_u32 := by
  induction k with
  | zero => rfl
  | succ k ih => exact ih

theorem Visitor.adaptK_visit_u64 {R : Type} (k : Nat) (v : Visitor R) :
    (Visitor.adaptK k v).visit_u64 = v.visit_u64 := by
  induction k with
  | zero => rfl
  | succ k ih => exact ih

theorem Visitor.adaptK_visit_u128 {R : Type} (k : Nat) (v : Visitor R) :
    (Visitor.adaptK k v).visit_u128 = v.visit_u128 := by
  induction k with
  | zero => rfl
  | succ k ih => exact ih

theorem Visitor.adaptK_visit_f32 {R : Type} (k : Nat) (v : Visitor R) :
    (Visitor.adaptK k v).visit_f32 = v.visit_f32 := by
  induction k with
  | zero => rfl
  | succ k ih => exact ih

theorem Visitor.adaptK_visit_f64 {R : Type} (k : Nat) (v : Visitor R) :
    (Visitor.adaptK k v).visit_f64 = v.visit_f64 := by
  induction k with
  | zero => rfl
  | succ k ih => exact ih

theorem Visitor.adaptK_visit_char {R : Type} (k : Nat) (v : Visitor R) :
    (Visitor.adaptK k v).visit_char = v.visit_char := by
  induction k with
  | zero => rfl
  | succ k ih => exact ih

theorem Visitor.adaptK_visit_string {R : Type} (k : Nat) (v : Visitor R) :
    (Visitor.adaptK k v).visit_string = v.visit_string := by
  induction k with
  | zero => rfl
  | succ k ih => exact ih

theorem Visitor.adaptK_visit_byte_buf {R : Type} (k : Nat) (v : Visitor R) :
    (Visitor.adaptK k v).visit_byte_buf = v.visit_byte_buf := by
  induction k with
  | zero => rfl
  | succ k ih => exact ih

theorem Visitor.adaptK_visit_none {R : Type} (k : Nat) (v : Visitor R) :
    (Visitor.adaptK k v).visit_none = v.visit_none := by
  induction k with
  | zero => rfl
  | succ k ih => exact ih

theorem Visitor.adaptK_visit_unit {R : Type} (k : Nat) (v : Visitor R) :
    (Visitor.adaptK k v).visit_unit = v.visit_unit := by
  induction k with
  | zero => rfl
  | succ k ih => exact ih

theorem Visitor.adaptK_expecting {R : Type} (k : Nat) (v : Visitor R) :
    (Visitor.adaptK k v).expecting = v.expecting := by
  induction k with
  | zero => rfl
  | succ k ih => exact ih

theorem Visitor.adaptK_visit_some {R : Type} (k : Nat) (v : Visitor R) (d : Deserializer) :
    (Visitor.adaptK k v).visit_some d = v.visit_some (Deserializer.adaptK k d) := by
  induction k generalizing d with
  | zero => rfl
  | succ k ih =>
      show (Visitor.adaptK k v).visit_some (Deserializer.adapt d) = _
      rw [ih, Deserializer.adaptK_comm_deserializer]
      rfl

theorem Visitor.adaptK_visit_newtype_struct {R : Type} (k : Nat) (v : Visitor R)
    (d : Deserializer) :
    (Visitor.adaptK k v).visit_newtype_struct d =
      v.visit_newtype_struct (Deserializer.adaptK k d) := by
  induction k generalizing d with
  | zero => rfl
  | succ k ih =>
      show (Visitor.adaptK k v).visit_newtype_struct (Deserializer.adapt d) = _
      rw [ih, Deserializer.adaptK_comm_deserializer]
      rfl

theorem Visitor.adaptK_visit_seq {R : Type} (k : Nat) (v : Visitor R) (a : SeqAccess) :
    (Visitor.adaptK k v).visit_seq a = v.visit_seq (SeqAccess.adaptK k a) := by
  induction k generalizing a with
  | zero => rfl
  | succ k ih =>
      show (Visitor.adaptK k v).visit_seq (SeqAccess.adapt a) = _
      rw [ih, SeqAccess.adaptK_comm_seq]
      rfl

theorem Visitor.adaptK_visit_map {R : Type} (k : Nat) (v : Visitor R) (a : MapAccess) :
    (Visitor.adaptK k v).visit_map a = v.visit_map (MapAccess.adaptK k a) := by
  induction k generalizing a with
  | zero => rfl
  | succ k ih =>
      show (Visitor.adaptK k v).visit_map (MapAccess.adapt a) = _
      rw [ih, MapAccess.adaptK_comm_map]
      rfl

theorem Visitor.adaptK_visit_enum {R : Type} (k : Nat) (v : Visitor R) (a : EnumAccess) :
    (Visitor.adaptK k v).visit_enum a = v.visit_enum (EnumAccess.adaptK k a) := by
  induction k generalizing a with
  | zero => rfl
  | succ k ih =>
      show (Visitor.adaptK k v).visit_enum (EnumAccess.adapt a) = _
      rw [ih, EnumAccess.adaptK_comm_enum]
      rfl

theorem Seed.mk_deserialize (f : Deserializer → Except Err DItem) (d : Deserializer) :
    (Seed.mk f).deserialize d = f d := rfl

theorem Deserializer.deserialize_model_any {R : Type} (h : Bool) (i : DItem) (v : Visitor R) :
    (Deserializer.model h i).deserialize Method.any v = driveAny h v i := rfl

/-- Simulation: running the universal consumer through one more adapter
layer produces exactly the directly decoded value with every borrowable
flag cleared, at every fuel, every base input and every wrapping depth, and
likewise for the sequence and map drains. -/
theorem sim : ∀ n : Nat,
    (∀ (k : Nat) (h : Bool) (i : DItem),
        uDecode n (Deserializer.adaptK (k + 1) (Deserializer.model h i)) =
          (uDecode n (Deserializer.adaptK k (Deserializer.model h i))).map detachItem)
    ∧ (∀ (k : Nat) (h : Bool) (vs : DList),
        uSeqLoop n (SeqAccess.adaptK (k + 1) (SeqAccess.model h vs)) =
          (uSeqLoop n (SeqAccess.adaptK k (SeqAccess.model h vs))).map detachList)
    ∧ (∀ (k : Nat) (h : Bool) (pend : Option DItem) (es : DPairs),
        uMapLoop n (MapAccess.adaptK (k + 1) (MapAccess.model h pend es)) =
          (uMapLoop n (MapAccess.adaptK k (MapAccess.model h pend es))).map detachPairs) := by
  intro n
  induction n with
  | zero => exact ⟨fun _ _ _ => rfl, fun _ _ _ => rfl, fun _ _ _ _ => rfl⟩
  | succ n ih =>
    obtain ⟨ihP, ihL, ihM⟩ := ih
    refine ⟨?_, ?_, ?_⟩
    · intro k h i
      rw [uDecode_succ, uDecode_succ, Deserializer.deserialize_adaptK,
        Deserializer.deserialize_adaptK, Deserializer.deserialize_model_any,
        Deserializer.deserialize_model_any]
      cases i with
      | bool b => simp [driveAny, Visitor.adaptK_visit_bool, uVisitor, uVisitorF, Except.map, detachItem]
      | i8 m => simp [driveAny, Visitor.adaptK_visit_i8, uVisitor, uVisitorF, Except.map, detachItem]
      | i16 m => simp [driveAny, Visitor.adaptK_visit_i16, uVisitor, uVisitorF, Except.map, detachItem]
      | i32 m => simp [driveAny, Visitor.adaptK_visit_i32, uVisitor, uVisitorF, Except.map, detachItem]
      | i64 m => simp [driveAny, Visitor.adaptK_visit_i64, uVisitor, uVisitorF, Except.map, detachItem]
      | i128 m => simp [driveAny, Visitor.adaptK_visit_i128, uVisitor, uVisitorF, Except.map, detachItem]
      | u8 m => simp [driveAny, Visitor.adaptK_visit_u8, uVisitor, uVisitorF, Except.map, detachItem]
      | u16 m => simp [driveAny, Visitor.adaptK_visit_u16, uVisitor, uVisitorF, Except.map, detachItem]
      | u32 m => simp [driveAny, Visitor.adaptK_visit_u32, uVisitor, uVisitorF, Except.map, detachItem]
      | u64 m => simp [driveAny, Visitor.adaptK_visit_u64, uVisitor, uVisitorF, Except.map, detachItem]
      | u128 m => simp [driveAny, Visitor.adaptK_visit_u128, uVisitor, uVisitorF, Except.map, detachItem]
      | f32 bits => simp [driveAny, Visitor.adaptK_visit_f32, uVisitor, uVisitorF, Except.map, detachItem]
      | f64 bits => simp [driveAny, Visitor.adaptK_visit_f64, uVisitor, uVisitorF, Except.map, detachItem]
      | char c => simp [driveAny, Visitor.adaptK_visit_char, uVisitor, uVisitorF, Except.map, detachItem]
      | string s => simp [driveAny, Visitor.adaptK_visit_string, uVisitor, uVisitorF, Except.map, detachItem]
      | byteBuf bs => simp [driveAny, Visitor.adaptK_visit_byte_buf, uVisitor, uVisitorF, Except.map, detachItem]
      | unit => simp [driveAny, Visitor.adaptK_visit_unit, uVisitor, uVisitorF, Except.map, detachItem]
      | none => simp [driveAny, Visitor.adaptK_visit_none, uVisitor, uVisitorF, Except.map, detachItem]
      | fail msg => simp [driveAny, Except.map]
      | str s b =>
        cases b with
        | false => simp [driveAny, Visitor.adaptK_visit_str, uVisitor, uVisitorF, Except.map, detachItem]
        | true =>
          cases k with
          | zero =>
            simp [driveAny, Visitor.adaptK_succ_visit_borrowed_str, Visitor.adaptK,
              Visitor.adapt, uVisitor, uVisitorF, Except.map, detachItem]
          | succ j =>
            simp [driveAny, Visitor.adaptK_succ_visit_borrowed_str, uVisitor, uVisitorF,
              Except.map, detachItem]
      | bytes bs b =>
        cases b with
        | false => simp [driveAny, Visitor.adaptK_visit_bytes, uVisitor, uVisitorF, Except.map, detachItem]
        | true =>
          cases k with
          | zero =>
            simp [driveAny, Visitor.adaptK_succ_visit_borrowed_bytes, Visitor.adaptK,
              Visitor.adapt, uVisitor, uVisitorF, Except.map, detachItem]
          | succ j =>
            simp [driveAny, Visitor.adaptK_succ_visit_borrowed_bytes, uVisitor, uVisitorF,
              Except.map, detachItem]
      | some x =>
        simp only [driveAny]
        rw [Visitor.adaptK_visit_some, Visitor.adaptK_visit_some]
        simp only [uVisitor, uVisitorF]
        rw [ihP k h x]
        cases uDecode n (Deserializer.adaptK k (Deserializer.model h x)) <;>
          simp [Except.map, detachItem]
      | newtype x =>
        simp only [driveAny]
        rw [Visitor.adaptK_visit_newtype_struct, Visitor.adaptK_visit_newtype_struct]
        simp only [uVisitor, uVisitorF]
        rw [ihP k h x]
        cases uDecode n (Deserializer.adaptK k (Deserializer.model h x)) <;>
          simp [Except.map, detachItem]
      | seq vs =>
        simp only [driveAny]
        rw [Visitor.adaptK_visit_seq, Visitor.adaptK_visit_seq]
        simp only [uVisitor, uVisitorF]
        rw [ihL k h vs]
        cases uSeqLoop n (SeqAccess.adaptK k (SeqAccess.model h vs)) <;>
          simp [Except.map, detachItem]
      | map kvs =>
        simp only [driveAny]
        rw [Visitor.adaptK_visit_map, Visitor.adaptK_visit_map]
        simp only [uVisitor, uVisitorF]
        rw [ihM k h Option.none kvs]
        cases uMapLoop n (MapAccess.adaptK k (MapAccess.model h Option.none kvs)) <;>
          simp [Except.map, detachItem]
      | enum vid pl =>
        simp only [driveAny]
        rw [Visitor.adaptK_visit_enum, Visitor.adaptK_visit_enum]
        simp only [uVisitor, uVisitorF]
        rw [EnumAccess.variant_seed_adaptK, EnumAccess.variant_seed_adaptK]
        simp only [EnumAccess.variant_seed]
        rw [Seed.adaptK_deserialize, Seed.adaptK_deserialize, Seed.mk_deserialize,
          Seed.mk_deserialize]
        rw [ihP k h vid]
        cases uDecode n (Deserializer.adaptK k (Deserializer.model h vid)) with
        | error e => simp [Except.map]
        | ok t =>
          simp only [Except.map]
          rw [VariantAccess.newtype_variant_seed_adaptK,
            VariantAccess.newtype_variant_seed_adaptK]
          simp only [VariantAccess.newtype_variant_seed]
          rw [Seed.adaptK_deserialize, Seed.adaptK_deserialize, Seed.mk_deserialize,
            Seed.mk_deserialize]
          rw [ihP k h pl]
          cases uDecode n (Deserializer.adaptK k (Deserializer.model h pl)) <;>
            simp [Except.map, detachItem]
    · intro k h vs
      rw [uSeqLoop_succ, uSeqLoop_succ, SeqAccess.next_element_seed_adaptK,
        SeqAccess.next_element_seed_adaptK]
      cases vs with
      | nil => simp [SeqAccess.next_element_seed, Except.map, detachList]
      | cons x xs =>
        simp only [SeqAccess.next_element_seed]
        rw [Seed.adaptK_deserialize, Seed.adaptK_deserialize, Seed.mk_deserialize,
          Seed.mk_deserialize]
        rw [ihP k h x]
        cases uDecode n (Deserializer.adaptK k (Deserializer.model h x)) with
        | error e => simp [Except.map]
        | ok t =>
          simp only [Except.map]
          rw [ihL k h xs]
          cases uSeqLoop n (SeqAccess.adaptK k (SeqAccess.model h xs)) <;>
            simp [Except.map, detachList]
    · intro k h pend es
      rw [uMapLoop_succ, uMapLoop_succ, MapAccess.next_key_seed_adaptK,
        MapAccess.next_key_seed_adaptK]
      cases pend with
      | some v => simp [MapAccess.next_key_seed, Except.map]
      | none =>
        cases es with
        | nil => simp [MapAccess.next_key_seed, Except.map, detachPairs]
        | cons kx vx tl =>
          simp only [MapAccess.next_key_seed]
          rw [Seed.adaptK_deserialize, Seed.adaptK_deserialize, Seed.mk_deserialize,
            Seed.mk_deserialize]
          rw [ihP k h kx]
          cases uDecode n (Deserializer.adaptK k (Deserializer.model h kx)) with
          | error e => simp [Except.map]
          | ok kt =>
            simp only [Except.map]
            rw [MapAccess.next_value_seed_adaptK, MapAccess.next_value_seed_adaptK]
            simp only [MapAccess.next_value_seed]
            rw [Seed.adaptK_deserialize, Seed.adaptK_deserialize, Seed.mk_deserialize,
              Seed.mk_deserialize]
            rw [ihP k h vx]
            cases uDecode n (Deserializer.adaptK k (Deserializer.model h vx)) with
            | error e => simp [Except.map]
            | ok vt =>
              simp only [Except.map]
              rw [ihM k h Option.none tl]
              cases uMapLoop n (MapAccess.adaptK k (MapAccess.model h Option.none tl)) <;>
                simp [Except.map, detachPairs]

/-- True for input items whose model-format decoding issues a terminal
scalar notification carrying an owned value (or an immediate parse error):
booleans, every integer and float width, characters, copy strings, owned
strings, copy byte sequences, owned byte buffers, unit and none.  Excluded
are compound shapes and strings or byte sequences the decoder would offer
zero-copy. -/
def transparentScalar : DItem → Bool
  | DItem.str _ b => !b
  | DItem.bytes _ b => !b
  | DItem.some _ => false
  | DItem.newtype _ => false
  | DItem.seq _ => false
  | DItem.map _ => false
  | DItem.enum _ _ => false
  | _ => true

theorem driveAny_adapt_scalar {R : Type} (h : Bool) (i : DItem) (v : Visitor R)
    (hi : transparentScalar i = true) :
    driveAny h (Visitor.adapt v) i = driveAny h v i := by
  cases i with
  | bool b => rfl
  | i8 m => rfl
  | i16 m => rfl
  | i32 m => rfl
  | i64 m => rfl
  | i128 m => rfl
  | u8 m => rfl
  | u16 m => rfl
  | u32 m => rfl
  | u64 m => rfl
  | u128 m => rfl
  | f32 bits => rfl
  | f64 bits => rfl
  | char c => rfl
  | string s => rfl
  | byteBuf bs => rfl
  | unit => rfl
  | none => rfl
  | fail msg => rfl
  | str s b =>
    cases b with
    | false => rfl
    | true => simp [transparentScalar] at hi
  | bytes bs b =>
    cases b with
    | false => rfl
    | true => simp [transparentScalar] at hi
  | some x => simp [transparentScalar] at hi
  | newtype x => simp [transparentScalar] at hi
  | seq vs => simp [transparentScalar] at hi
  | map kvs => simp [transparentScalar] at hi
  | enum vid pl => simp [transparentScalar] at hi

theorem adapt_model_transparent {R : Type} (h : Bool) (i : DItem) (m : Method)
    (v : Visitor R) (hi : transparentScalar i = true)
    (hm : m.isNewtypeStructCall = false) :
    (Deserializer.adapt (Deserializer.model h i)).deserialize m v =
      (Deserializer.model h i).deserialize m v := by
  cases m <;> simp [Method.isNewtypeStructCall] at hm <;>
    exact driveAny_adapt_scalar h i v hi

theorem adapt_decode_owned (n : Nat) (h : Bool) (i : DItem) (r : DItem)
    (hr : uDecode n (Deserializer.adapt (Deserializer.model h i)) = Except.ok r) :
    ownedOnly r = true := by
  have hs := (sim n).1 0 h i
  rw [show Deserializer.adapt (Deserializer.model h i) =
        Deserializer.adaptK 1 (Deserializer.model h i) from rfl, hs] at hr
  cases hd : uDecode n (Deserializer.adaptK 0 (Deserializer.model h i)) with
  | error e => rw [hd] at hr; simp [Except.map] at hr
  | ok r0 =>
    rw [hd] at hr
    simp only [Except.map, Except.ok.injEq] at hr
    rw [← hr]
    exact detachItem_owned r0

theorem sim_error_iff (n k : Nat) (h : Bool) (i : DItem) (e : Err) :
    uDecode n (Deserializer.adaptK k (Deserializer.model h i)) = Except.error e ↔
      uDecode n (Deserializer.adaptK (k + 1) (Deserializer.model h i)) = Except.error e := by
  rw [(sim n).1 k h i]
  cases uDecode n (Deserializer.adaptK k (Deserializer.model h i)) <;>
    simp [Except.map]

theorem sim_double_adapt (n k : Nat) (h : Bool) (i : DItem) :
    uDecode n (Deserializer.adaptK (k + 2) (Deserializer.model h i)) =
      uDecode n (Deserializer.adaptK (k + 1) (Deserializer.model h i)) := by
  rw [(sim n).1 (k + 1) h i, (sim n).1 k h i]
  cases uDecode n (Deserializer.adaptK k (Deserializer.model h i)) with
  | error e => rfl
  | ok r => simp [Except.map, detachItem_idem r]

/-- Result type of a borrow-polymorphic decode target in the style of Cow
over str: it records whether the decoded string view was produced from the
zero-copy notification (borrowed) or from a copy notification (owned). -/
inductive CowStr : Type where
  | borrowed (s : String)
  | owned (s : String)

/-- The serde default behaviour of an unimplemented visitor handler: an
invalid-type error naming what the visitor expected. -/
def vErr {R : Type} (expected : String) : Except Err R :=
  Except.error (Err.invalidType (r"unexpected notification") expected)

/-- A visitor with every handler left at the erroring serde default. -/
def failingVisitor (R : Type) (expected : String) : Visitor R where
  expecting := expected
  visit_bool := fun _ => vErr expected
  visit_i8 := fun _ => vErr expected
  visit_i16 := fun _ => vErr expected
  visit_i32 := fun _ => vErr expected
  visit_i64 := fun _ => vErr expected
  visit_i128 := fun _ => vErr expected
  visit_u8 := fun _ => vErr expected
  visit_u16 := fun _ => vErr expected
  visit_u32 := fun _ => vErr expected
  visit_u64 := fun _ => vErr expected
  visit_u128 := fun _ => vErr expected
  visit_f32 := fun _ => vErr expected
  visit_f64 := fun _ => vErr expected
  visit_char := fun _ => vErr expected
  visit_str := fun _ => vErr expected
  visit_borrowed_str := fun _ => vErr expected
  visit_string := fun _ => vErr expected
  visit_bytes := fun _ => vErr expected
  visit_borrowed_bytes := fun _ => vErr expected
  visit_byte_buf := fun _ => vErr expected
  visit_none := vErr expected
  visit_some := fun _ => vErr expected
  visit_unit := vErr expected
  visit_newtype_struct := fun _ => vErr expected
  visit_seq := fun _ => vErr expected
  visit_map := fun _ => vErr expected
  visit_enum := fun _ => vErr expected

/-- Visitor of a borrow-polymorphic string target: the zero-copy
notification yields the borrowed representation, the copy notifications
yield the owned representation. -/
def cowStrVisitor : Visitor CowStr :=
  { failingVisitor CowStr (r"a string") with
    visit_str := fun s => Except.ok (CowStr.owned s)
    visit_borrowed_str := fun s => Except.ok (CowStr.borrowed s)
    visit_string := fun s => Except.ok (CowStr.owned s) }

/-- Visitor of a borrow-only string target (a plain reference): only the
zero-copy notification is implemented; every other handler, including the
copy handler visit_str that the zero-copy default would fall back to, is
the erroring serde default. -/
def refStrVisitor : Visitor String :=
  { failingVisitor String (r"a borrowed string") with
    visit_borrowed_str := fun s => Except.ok s }

/-- A nested sample input: a sequence holding a zero-copy string, a nested
sequence with zero-copy bytes, a map with zero-copy keys and values, and an
enum whose identifier and option payload are zero-copy strings. -/
def sampleInput : DItem :=
  DItem.seq
    (DList.cons (DItem.str (r"a") true)
      (DList.cons (DItem.seq (DList.cons (DItem.bytes [7, 8] true) DList.nil))
        (DList.cons
          (DItem.map (DPairs.cons (DItem.str (r"k") true) (DItem.str (r"v") true) DPairs.nil))
          (DList.cons
            (DItem.enum (DItem.str (r"V") true) (DItem.some (DItem.str (r"p") true)))
            DList.nil))))

/-- C1: The Visitor adapter implements no zero-copy notification, so by the
protocol default-fallback rule its borrowed-string and borrowed-bytes
handlers deliver the copy notification to the wrapped visitor; consequently
a borrow-polymorphic target (CowStr) decoded through the adapter always
yields the owned representation, even on input the underlying decoder
offers zero-copy, where direct decoding yields the borrowed one. -/
theorem C1_zero_copy_notifications_erased :
    (∀ (R : Type) (v : Visitor R),
        (Visitor.adapt v).visit_borrowed_str = v.visit_str ∧
        (Visitor.adapt v).visit_borrowed_bytes = v.visit_bytes)
    ∧ (∀ (h : Bool) (s : String) (b : Bool),
        (Deserializer.adapt (Deserializer.model h (DItem.str s b))).deserialize
            Method.str cowStrVisitor = Except.ok (CowStr.owned s))
    ∧ (∀ (h : Bool) (s : String),
        (Deserializer.model h (DItem.str s true)).deserialize Method.str cowStrVisitor =
          Except.ok (CowStr.borrowed s)) := by
  refine ⟨fun R v => ⟨rfl, rfl⟩, fun h s b => ?_, fun h s => rfl⟩
  cases b <;> rfl

/-- C2: The Seed adapter wraps whatever Deserializer it is given in a fresh
Deserializer adapter before delegating to the wrapped seed; consequently
zero-copy erasure holds at every nesting depth: every successful decode of
the universal structural consumer through the adapter returns a value with
no borrowed string or byte-sequence leaf anywhere in the tree. -/
theorem C2_seed_recursive_closure :
    (∀ (T : Type) (s : Seed T) (d : Deserializer),
        (Seed.adapt s).deserialize d = s.deserialize (Deserializer.new d))
    ∧ (∀ (n : Nat) (h : Bool) (i : DItem) (r : DItem),
        uDecode n (Deserializer.adapt (Deserializer.model h i)) = Except.ok r →
          ownedOnly r = true) :=
  ⟨fun _ _ _ => rfl, fun n h i r hr => adapt_decode_owned n h i r hr⟩

/-- Witness for C2 at the nested sample input: decoding it through the
adapter succeeds and the result is owned at every depth. -/
theorem C2_seed_recursive_closure_witness :
    ownedOnly (detachItem sampleInput) = true :=
  C2_seed_recursive_closure.2 12 true sampleInput (detachItem sampleInput) rfl

/-- C3: The entry wrapper's decode invokes the target's decode entry point
on the Deserializer wrapped in exactly one Deserializer adapter and wraps
the success value in the one-field holder; it propagates the underlying
error unchanged, and detach returns the plain held value. -/
theorem C3_detach_entry_contract :
    (∀ (T : Type) (tDe : Deserializer → Except Err T) (d : Deserializer),
        Detach.deserialize tDe d = (tDe (Deserializer.adapt d)).map Detach.mk)
    ∧ (∀ (T : Type) (tDe : Deserializer → Except Err T) (d : Deserializer) (t : T),
        tDe (Deserializer.adapt d) = Except.ok t →
          Detach.deserialize tDe d = Except.ok (Detach.mk t))
    ∧ (∀ (T : Type) (tDe : Deserializer → Except Err T) (d : Deserializer) (e : Err),
        tDe (Deserializer.adapt d) = Except.error e →
          Detach.deserialize tDe d = Except.error e)
    ∧ (∀ (T : Type) (x : T), detach (Detach.mk x) = x) := by
  refine ⟨fun T tDe d => rfl, fun T tDe d t ht => ?_, fun T tDe d e he => ?_,
    fun T x => rfl⟩
  · show (tDe (Deserializer.adapt d)).map Detach.mk = _
    rw [ht]
    rfl
  · show (tDe (Deserializer.adapt d)).map Detach.mk = _
    rw [he]
    rfl

/-- Witness for C3: a concrete succeeding and a concrete failing decode
entry point. -/
theorem C3_detach_entry_contract_witness :
    Detach.deserialize (fun _ => Except.ok 5) (Deserializer.model true DItem.unit) =
        Except.ok (Detach.mk 5)
    ∧ Detach.deserialize (fun _ => (Except.error (Err.custom (r"boom")) : Except Err Nat))
        (Deserializer.model true DItem.unit) = Except.error (Err.custom (r"boom")) :=
  ⟨C3_detach_entry_contract.2.1 Nat (fun _ => Except.ok 5)
      (Deserializer.model true DItem.unit) 5 rfl,
   C3_detach_entry_contract.2.2.1 Nat
      (fun _ => (Except.error (Err.custom (r"boom")) : Except Err Nat))
      (Deserializer.model true DItem.unit) (Err.custom (r"boom")) rfl⟩

/-- C4: Every terminal scalar notification of the Visitor adapter forwards
the value to the wrapped visitor unchanged and returns whatever it reports;
consequently, for every input whose model decoding is a terminal scalar
notification and every dispatch method (other than the newtype-struct
method, which by design hands the visitor a nested Deserializer), decoding
through the adapter is bit-identical to decoding directly, for every
visitor. -/
theorem C4_scalar_transparency :
    (∀ (R : Type) (v : Visitor R),
        (Visitor.adapt v).visit_bool = v.visit_bool ∧
        (Visitor.adapt v).visit_i8 = v.visit_i8 ∧
        (Visitor.adapt v).visit_i16 = v.visit_i16 ∧
        (Visitor.adapt v).visit_i32 = v.visit_i32 ∧
        (Visitor.adapt v).visit_i64 = v.visit_i64 ∧
        (Visitor.adapt v).visit_i128 = v.visit_i128 ∧
        (Visitor.adapt v).visit_u8 = v.visit_u8 ∧
        (Visitor.adapt v).visit_u16 = v.visit_u16 ∧
        (Visitor.adapt v).visit_u32 = v.visit_u32 ∧
        (Visitor.adapt v).visit_u64 = v.visit_u64 ∧
        (Visitor.adapt v).visit_u128 = v.visit_u128 ∧
        (Visitor.adapt v).visit_f32 = v.visit_f32 ∧
        (Visitor.adapt v).visit_f64 = v.visit_f64 ∧
        (Visitor.adapt v).visit_char = v.visit_char ∧
        (Visitor.adapt v).visit_str = v.visit_str ∧
        (Visitor.adapt v).visit_string = v.visit_string ∧
        (Visitor.adapt v).visit_bytes = v.visit_bytes ∧
        (Visitor.adapt v).visit_byte_buf = v.visit_byte_buf ∧
        (Visitor.adapt v).visit_none = v.visit_none ∧
        (Visitor.adapt v).visit_unit = v.visit_unit)
    ∧ (∀ (h : Bool) (i : DItem) (m : Method) (R : Type) (v : Visitor R),
        transparentScalar i = true → m.isNewtypeStructCall = false →
          (Deserializer.adapt (Deserializer.model h i)).deserialize m v =
            (Deserializer.model h i).deserialize m v) :=
  ⟨fun R v =>
    ⟨rfl, rfl, rfl, rfl, rfl, rfl, rfl, rfl, rfl, rfl, rfl, rfl, rfl, rfl, rfl,
     rfl, rfl, rfl, rfl, rfl⟩,
   fun h i m R v hi hm => adapt_model_transparent h i m v hi hm⟩

/-- Witness for C4 at a concrete owned string input. -/
theorem C4_scalar_transparency_witness :
    (Deserializer.adapt (Deserializer.model true (DItem.str (r"s") false))).deserialize
        Method.str cowStrVisitor =
      (Deserializer.model true (DItem.str (r"s") false)).deserialize Method.str
        cowStrVisitor :=
  C4_scalar_transparency.2 true (DItem.str (r"s") false) Method.str CowStr cowStrVisitor
    rfl rfl

/-- C5: Every dispatch operation of the Deserializer adapter delegates to
the identically named operation of the wrapped Deserializer (the Method
value, carrying names, field lists and expected lengths, passes through
unchanged) with the Visitor wrapped in the Visitor adapter, and the
human-readable query is forwarded unchanged. -/
theorem C5_dispatch_delegation :
    (∀ (R : Type) (d : Deserializer) (m : Method) (v : Visitor R),
        (Deserializer.adapt d).deserialize m v = d.deserialize m (Visitor.adapt v))
    ∧ (∀ d : Deserializer,
        (Deserializer.adapt d).is_human_readable = d.is_human_readable) :=
  ⟨fun _ _ _ _ => rfl, fun _ => rfl⟩

/-- C6: The sequence adapter forwards the pull with the element seed
wrapped and the size hint unchanged; the map adapter wraps key seed, value
seed and both seeds of the entry pull, with its size hint unchanged; the
enum adapter wraps the variant seed going in, returns the identified value
unchanged, and wraps the returned payload cursor as a VariantAccess
adapter. -/
theorem C6_access_adapters_forward :
    (∀ (T : Type) (a : SeqAccess) (s : Seed T),
        (SeqAccess.adapt a).next_element_seed s =
          (a.next_element_seed (Seed.adapt s)).map (fun p => (p.1, SeqAccess.adapt p.2)))
    ∧ (∀ a : SeqAccess, (SeqAccess.adapt a).size_hint = a.size_hint)
    ∧ (∀ (K : Type) (a : MapAccess) (s : Seed K),
        (MapAccess.adapt a).next_key_seed s =
          (a.next_key_seed (Seed.adapt s)).map (fun p => (p.1, MapAccess.adapt p.2)))
    ∧ (∀ (V : Type) (a : MapAccess) (s : Seed V),
        (MapAccess.adapt a).next_value_seed s =
          (a.next_value_seed (Seed.adapt s)).map (fun p => (p.1, MapAccess.adapt p.2)))
    ∧ (∀ (K V : Type) (a : MapAccess) (ks : Seed K) (vs : Seed V),
        (MapAccess.adapt a).next_entry_seed ks vs =
          (a.next_entry_seed (Seed.adapt ks) (Seed.adapt vs)).map
            (fun p => (p.1, MapAccess.adapt p.2)))
    ∧ (∀ a : MapAccess, (MapAccess.adapt a).size_hint = a.size_hint)
    ∧ (∀ (T : Type) (a : EnumAccess) (s : Seed T),
        (EnumAccess.adapt a).variant_seed s =
          (a.variant_seed (Seed.adapt s)).map (fun p => (p.1, VariantAccess.adapt p.2))) :=
  ⟨fun _ _ _ => rfl, fun _ => rfl, fun _ _ _ => rfl, fun _ _ _ => rfl,
   fun _ _ _ _ _ => rfl, fun _ => rfl, fun _ _ _ => rfl⟩

/-- C7: The adapter introduces no error of its own: an adapted dispatch
fails with exactly the errors of the wrapped Deserializer run on the
wrapped visitor; on terminal scalar input the adapted and the direct decode
fail with the same error for every visitor; the universal consumer fails
with the same error through any extra adapter layer; and a failing input
fails through the adapter with its own error, passed through unchanged. -/
theorem C7_error_fidelity :
    (∀ (R : Type) (d : Deserializer) (m : Method) (v : Visitor R) (e : Err),
        (Deserializer.adapt d).deserialize m v = Except.error e ↔
          d.deserialize m (Visitor.adapt v) = Except.error e)
    ∧ (∀ (h : Bool) (i : DItem) (m : Method) (R : Type) (v : Visitor R) (e : Err),
        transparentScalar i = true → m.isNewtypeStructCall = false →
          ((Deserializer.model h i).deserialize m v = Except.error e ↔
            (Deserializer.adapt (Deserializer.model h i)).deserialize m v =
              Except.error e))
    ∧ (∀ (n k : Nat) (h : Bool) (i : DItem) (e : Err),
        uDecode n (Deserializer.adaptK k (Deserializer.model h i)) = Except.error e ↔
          uDecode n (Deserializer.adaptK (k + 1) (Deserializer.model h i)) =
            Except.error e)
    ∧ (∀ (h : Bool) (msg : String) (m : Method) (R : Type) (v : Visitor R),
        m.isNewtypeStructCall = false →
          (Deserializer.adapt (Deserializer.model h (DItem.fail msg))).deserialize m v =
            Except.error (Err.custom msg)) := by
  refine ⟨fun R d m v e => Iff.rfl, fun h i m R v e hi hm => ?_,
    fun n k h i e => sim_error_iff n k h i e, fun h msg m R v hm => ?_⟩
  · rw [adapt_model_transparent h i m v hi hm]
  · rw [adapt_model_transparent h (DItem.fail msg) m v rfl hm]
    cases m <;> simp [Method.isNewtypeStructCall] at hm <;> rfl

/-- Witness for C7 at a concrete failing input. -/
theorem C7_error_fidelity_witness :
    (Deserializer.adapt (Deserializer.model true (DItem.fail (r"boom")))).deserialize
        Method.any refStrVisitor = Except.error (Err.custom (r"boom")) :=
  C7_error_fidelity.2.2.2 true (r"boom") Method.any String refStrVisitor rfl

theorem driveAny_refStr_fails (h : Bool) (i : DItem) :
    ∃ e : Err, driveAny h (Visitor.adapt refStrVisitor) i = Except.error e := by
  cases i with
  | bool b => exact ⟨_, rfl⟩
  | i8 m => exact ⟨_, rfl⟩
  | i16 m => exact ⟨_, rfl⟩
  | i32 m => exact ⟨_, rfl⟩
  | i64 m => exact ⟨_, rfl⟩
  | i128 m => exact ⟨_, rfl⟩
  | u8 m => exact ⟨_, rfl⟩
  | u16 m => exact ⟨_, rfl⟩
  | u32 m => exact ⟨_, rfl⟩
  | u64 m => exact ⟨_, rfl⟩
  | u128 m => exact ⟨_, rfl⟩
  | f32 bits => exact ⟨_, rfl⟩
  | f64 bits => exact ⟨_, rfl⟩
  | char c => exact ⟨_, rfl⟩
  | str s b => cases b <;> exact ⟨_, rfl⟩
  | string s => exact ⟨_, rfl⟩
  | bytes bs b => cases b <;> exact ⟨_, rfl⟩
  | byteBuf bs => exact ⟨_, rfl⟩
  | unit => exact ⟨_, rfl⟩
  | none => exact ⟨_, rfl⟩
  | some x => exact ⟨_, rfl⟩
  | newtype x => exact ⟨_, rfl⟩
  | seq vs => exact ⟨_, rfl⟩
  | map kvs => exact ⟨_, rfl⟩
  | enum vid pl => exact ⟨_, rfl⟩
  | fail msg => exact ⟨_, rfl⟩

/-- C8: A borrow-only target (producible only through the zero-copy
notification) decodes directly when the decoder offers a zero-copy string,
but through the adapter it always fails with a decode-time error, on every
input and every dispatch method, and never silently succeeds. -/
theorem C8_borrow_only_rejection :
    (∀ (h : Bool) (s : String),
        (Deserializer.model h (DItem.str s true)).deserialize Method.str refStrVisitor =
          Except.ok s)
    ∧ (∀ (h : Bool) (i : DItem) (m : Method), ∃ e : Err,
        (Deserializer.adapt (Deserializer.model h i)).deserialize m refStrVisitor =
          Except.error e) := by
  refine ⟨fun h s => rfl, fun h i m => ?_⟩
  cases m <;> first
    | exact ⟨_, rfl⟩
    | exact driveAny_refStr_fails h i

/-- C9: Wrapping then unwrapping is lossless for the entry wrapper, the
Deserializer adapter and every cursor adapter. -/
theorem C9_wrap_unwrap_lossless :
    (∀ (T : Type) (x : T), detach (Detach.mk x) = x)
    ∧ (∀ d : Deserializer, (Deserializer.new d).into_inner = d)
    ∧ (∀ a : SeqAccess, (SeqAccess.new a).into_inner = a)
    ∧ (∀ a : MapAccess, (MapAccess.new a).into_inner = a)
    ∧ (∀ a : EnumAccess, (EnumAccess.new a).into_inner = a)
    ∧ (∀ a : VariantAccess, (VariantAccess.new a).into_inner = a) :=
  ⟨fun _ _ => rfl, fun _ => rfl, fun _ => rfl, fun _ => rfl, fun _ => rfl, fun _ => rfl⟩

/-- C10: Adapting twice behaves like adapting once: the doubly adapted
visitor agrees with the singly adapted one on every terminal notification
(including the zero-copy fallbacks); on terminal scalar input the doubly
wrapped Deserializer gives every visitor the same result as the singly
wrapped one on every dispatch method other than newtype-struct; and the
universal structural consumer returns identical results through the doubly
and singly wrapped Deserializer on all inputs, at every wrapping depth and
every fuel. -/
theorem C10_double_adapt_idempotent :
    (∀ (R : Type) (v : Visitor R),
        (Visitor.adapt (Visitor.adapt v)).visit_bool = (Visitor.adapt v).visit_bool ∧
        (Visitor.adapt (Visitor.adapt v)).visit_i8 = (Visitor.adapt v).visit_i8 ∧
        (Visitor.adapt (Visitor.adapt v)).visit_i16 = (Visitor.adapt v).visit_i16 ∧
        (Visitor.adapt (Visitor.adapt v)).visit_i32 = (Visitor.adapt v).visit_i32 ∧
        (Visitor.adapt (Visitor.adapt v)).visit_i64 = (Visitor.adapt v).visit_i64 ∧
        (Visitor.adapt (Visitor.adapt v)).visit_i128 = (Visitor.adapt v).visit_i128 ∧
        (Visitor.adapt (Visitor.adapt v)).visit_u8 = (Visitor.adapt v).visit_u8 ∧
        (Visitor.adapt (Visitor.adapt v)).visit_u16 = (Visitor.adapt v).visit_u16 ∧
        (Visitor.adapt (Visitor.adapt v)).visit_u32 = (Visitor.adapt v).visit_u32 ∧
        (Visitor.adapt (Visitor.adapt v)).visit_u64 = (Visitor.adapt v).visit_u64 ∧
        (Visitor.adapt (Visitor.adapt v)).visit_u128 = (Visitor.adapt v).visit_u128 ∧
        (Visitor.adapt (Visitor.adapt v)).visit_f32 = (Visitor.adapt v).visit_f32 ∧
        (Visitor.adapt (Visitor.adapt v)).visit_f64 = (Visitor.adapt v).visit_f64 ∧
        (Visitor.adapt (Visitor.adapt v)).visit_char = (Visitor.adapt v).visit_char ∧
        (Visitor.adapt (Visitor.adapt v)).visit_str = (Visitor.adapt v).visit_str ∧
        (Visitor.adapt (Visitor.adapt v)).visit_borrowed_str =
          (Visitor.adapt v).visit_borrowed_str ∧
        (Visitor.adapt (Visitor.adapt v)).visit_string = (Visitor.adapt v).visit_string ∧
        (Visitor.adapt (Visitor.adapt v)).visit_bytes = (Visitor.adapt v).visit_bytes ∧
        (Visitor.adapt (Visitor.adapt v)).visit_borrowed_bytes =
          (Visitor.adapt v).visit_borrowed_bytes ∧
        (Visitor.adapt (Visitor.adapt v)).visit_byte_buf =
          (Visitor.adapt v).visit_byte_buf ∧
        (Visitor.adapt (Visitor.adapt v)).visit_none = (Visitor.adapt v).visit_none ∧
        (Visitor.adapt (Visitor.adapt v)).visit_unit = (Visitor.adapt v).visit_unit)
    ∧ (∀ (h : Bool) (i : DItem) (m : Method) (R : Type) (v : Visitor R),
        transparentScalar i = true → m.isNewtypeStructCall = false →
          (Deserializer.adapt (Deserializer.adapt (Deserializer.model h i))).deserialize
              m v =
            (Deserializer.adapt (Deserializer.model h i)).deserialize m v)
    ∧ (∀ (n k : Nat) (h : Bool) (i : DItem),
        uDecode n (Deserializer.adaptK (k + 2) (Deserializer.model h i)) =
          uDecode n (Deserializer.adaptK (k + 1) (Deserializer.model h i))) :=
  ⟨fun R v =>
    ⟨rfl, rfl, rfl, rfl, rfl, rfl, rfl, rfl, rfl, rfl, rfl, rfl, rfl, rfl, rfl,
     rfl, rfl, rfl, rfl, rfl, rfl, rfl⟩,
   fun h i m R v hi hm => adapt_model_transparent h i m (Visitor.adapt v) hi hm,
   fun n k h i => sim_double_adapt n k h i⟩

/-- Witness for C10 at a concrete boolean input. -/
theorem C10_double_adapt_idempotent_witness :
    (Deserializer.adapt (Deserializer.adapt (Deserializer.model true
        (DItem.bool true)))).deserialize Method.bool cowStrVisitor =
      (Deserializer.adapt (Deserializer.model true (DItem.bool true))).deserialize
        Method.bool cowStrVisitor :=
  C10_double_adapt_idempotent.2.1 true (DItem.bool true) Method.bool CowStr
    cowStrVisitor rfl rfl

end SerdeDetach
